import Mathlib

/-!
Verification of the backtest trading core of the repository
(src/backtest/broker.py, src/core/strategy.py, src/core/risk_control.py).

Money values (Python Decimal) are modelled as exact rationals; every
monetary quantity in the source is rounded half-up to 8 fractional digits
immediately after computation, which is mirrored by roundDecimal below.
Timestamps are integers in milliseconds (UTC).
-/

namespace Backtest

/-- Half-up rounding of a rational to an integer: ties are rounded away
from zero, matching decimal.ROUND_HALF_UP. -/
def halfUpUnits (x : ℚ) : ℤ :=
  if 0 ≤ x then ⌊x + 1 / 2⌋ else -⌊-x + 1 / 2⌋

/-- Broker._round_decimal: quantize to 8 fractional digits with
ROUND_HALF_UP (broker.py lines 127-137). -/
def roundDecimal (x : ℚ) : ℚ :=
  (halfUpUnits (x * 100000000) : ℚ) / 100000000

/-- A rational that is an exact multiple of 10^-8, i.e. representable
with at most 8 fractional decimal digits. -/
def isDec8 (x : ℚ) : Prop :=
  ∃ n : ℤ, x = (n : ℚ) / 100000000

/-- One entry of the position / trade dictionary of broker.py
(the _position_template at lines 88-109, minus the market-condition
snapshot, which no verified operation reads). -/
structure Position where
  symbol : String
  side : String
  strategy : Option String
  openTime : ℤ
  closeTime : Option ℤ
  openPrice : ℚ
  openAmt : ℚ
  openSize : ℚ
  closePrice : ℚ
  closeAmt : ℚ
  closeSize : ℚ
  margin : ℚ
  closeReason : Option String
  stopLoss : Option ℚ
  takeProfit : Option ℚ
  trailingStop : Option ℚ
  priceRate : Option ℚ
  pnl : ℚ
  pnlPercentage : ℚ

/-- The mutable state of the Broker object: configuration constants,
the account_info dictionary, the open-position map, the trade log and
the cooldown / daily-reset bookkeeping (broker.py lines 26-121). -/
structure BrokerState where
  commissionRate : ℚ
  slippageRate : ℚ
  leverage : ℚ
  maxMarginUsage : ℚ
  maxDailyLoss : ℚ
  maxDailyTrades : ℕ
  maxConsecutiveLoss : ℕ
  cooldownPeriod : ℤ
  accountEquity : ℚ
  totalTrades : ℕ
  totalPnl : ℚ
  dailyTrades : ℕ
  dailyPnl : ℚ
  positions : List (String × Position)
  trades : List Position
  consecutiveLosses : ℕ
  cooldownStartTime : ℤ
  isCooldownActivate : Bool
  lastResetTime : ℤ

/-- Lookup in the position dictionary (Python dict keyed by symbol). -/
def alookup : List (String × Position) → String → Option Position
  | [], _ => none
  | q :: rest, sym => if q.1 = sym then some q.2 else alookup rest sym

/-- Deletion from the position dictionary (del self.positions[symbol]). -/
def aerase (ps : List (String × Position)) (sym : String) : List (String × Position) :=
  ps.filter (fun q => q.1 ≠ sym)

/-- In-place mutation of the dictionary entry for a symbol. -/
def aupdate (ps : List (String × Position)) (sym : String) (v : Position) :
    List (String × Position) :=
  ps.map (fun q => if q.1 = sym then (q.1, v) else q)

/-- Sum of the margins of all open positions
(sum(position['margin'] for position in self.positions.values())). -/
def totalMargin (s : BrokerState) : ℚ :=
  (s.positions.map (fun q => q.2.margin)).sum

/-- Broker.calculate_commission (lines 173-183). -/
def calculateCommission (s : BrokerState) (amount : ℚ) : ℚ :=
  roundDecimal (amount * s.commissionRate)

/-- Broker.calculate_slippage (lines 185-198). -/
def calculateSlippage (s : BrokerState) (price : ℚ) (isBuy : Bool) : ℚ :=
  if isBuy then roundDecimal (price * (1 + s.slippageRate))
  else roundDecimal (price * (1 - s.slippageRate))

/-- The fresh position record built by Broker.open_position from the
position template (lines 257-273). -/
def newPosition (symbol side : String) (strategy : Option String) (timestamp : ℤ)
    (slippagePrice amount tradeSize margin : ℚ)
    (stopLoss takeProfit trailingStop priceRate : Option ℚ) : Position :=
  { symbol := symbol, side := side, strategy := strategy, openTime := timestamp
    closeTime := none, openPrice := slippagePrice, openAmt := amount
    openSize := tradeSize, closePrice := 0, closeAmt := 0, closeSize := 0
    margin := margin, closeReason := none, stopLoss := stopLoss
    takeProfit := takeProfit, trailingStop := trailingStop, priceRate := priceRate
    pnl := 0, pnlPercentage := 0 }

/-- The slippage-adjusted entry price of open_position (lines 240-244). -/
def openSlippagePrice (s : BrokerState) (side : String) (price : ℚ) : ℚ :=
  if side = "BUY" then calculateSlippage s price true
  else calculateSlippage s price false

/-- trade_size of open_position (line 247). -/
def openTradeSize (s : BrokerState) (side : String) (amount price : ℚ) : ℚ :=
  roundDecimal (amount * openSlippagePrice s side price)

/-- commission of open_position (line 248). -/
def openCommissionAmt (s : BrokerState) (side : String) (amount price : ℚ) : ℚ :=
  roundDecimal (calculateCommission s (openTradeSize s side amount price))

/-- margin of open_position (line 249). -/
def openMarginAmt (s : BrokerState) (side : String) (amount price : ℚ) : ℚ :=
  roundDecimal (openTradeSize s side amount price / s.leverage)

/-- The broker state produced by a successful open_position (lines
256-281): the new position is stored and the account is charged the
entry commission and credited a trade count. -/
def openSuccess (s : BrokerState) (symbol side : String) (amount price : ℚ)
    (timestamp : ℤ) (strategy : Option String)
    (stopLoss takeProfit trailingStop priceRate : Option ℚ) : BrokerState :=
  { s with
    positions := s.positions ++
      [(symbol, newPosition symbol side strategy timestamp
        (openSlippagePrice s side price) amount (openTradeSize s side amount price)
        (openMarginAmt s side amount price) stopLoss takeProfit trailingStop priceRate)]
    accountEquity := s.accountEquity - openCommissionAmt s side amount price
    totalTrades := s.totalTrades + 1
    dailyTrades := s.dailyTrades + 1 }

/-- Broker.open_position (lines 218-284).  Returns the success flag and
the next broker state. -/
def openPosition (s : BrokerState) (symbol side : String) (amount price : ℚ)
    (timestamp : ℤ) (strategy : Option String)
    (stopLoss takeProfit trailingStop priceRate : Option ℚ) : Bool × BrokerState :=
  if openMarginAmt s side amount price + openCommissionAmt s side amount price
      > s.accountEquity then (false, s)
  else
    match alookup s.positions symbol with
    | some _ => (false, s)
    | none =>
        (true, openSuccess s symbol side amount price timestamp strategy
          stopLoss takeProfit trailingStop priceRate)

/-- The side stored into the position by close_position before the exit
is computed (lines 305-309): the opposite of the entry side. -/
def closeSide (position : Position) : String :=
  if position.side = "BUY" then "SELL" else "BUY"

/-- The exit slippage price of close_position (lines 313-317), chosen by
the already-flipped side. -/
def closeSlippagePrice (s : BrokerState) (position : Position) (price : ℚ) : ℚ :=
  if closeSide position = "BUY" then calculateSlippage s price false
  else calculateSlippage s price true

/-- trade_size of close_position (line 320). -/
def closeTradeSize (s : BrokerState) (position : Position) (price : ℚ) : ℚ :=
  roundDecimal (position.openAmt * closeSlippagePrice s position price)

/-- commission of close_position (line 321). -/
def closeCommissionAmt (s : BrokerState) (position : Position) (price : ℚ) : ℚ :=
  roundDecimal (calculateCommission s (closeTradeSize s position price))

/-- pnl of close_position (lines 323-327), branching on the flipped side. -/
def closePnl (s : BrokerState) (position : Position) (price : ℚ) : ℚ :=
  if closeSide position = "BUY" then
    roundDecimal ((position.openPrice - closeSlippagePrice s position price)
      * position.openAmt)
  else
    roundDecimal ((closeSlippagePrice s position price - position.openPrice)
      * position.openAmt)

/-- The updated position dictionary entry written by close_position
(lines 329-338) and copied into the trade log (line 363). -/
def closedTrade (s : BrokerState) (position : Position) (price : ℚ) (timestamp : ℤ)
    (reason : Option String) : Position :=
  { position with
    side := closeSide position, closeTime := some timestamp
    closePrice := closeSlippagePrice s position price
    closeAmt := position.openAmt, closeSize := closeTradeSize s position price
    closeReason := reason, pnl := closePnl s position price
    pnlPercentage := roundDecimal (closePnl s position price / position.openSize * 100) }

/-- The broker state produced by a successful close_position (lines
340-366): equity, pnl accumulators, cooldown bookkeeping, trade log and
position removal. -/
def closeSuccess (s : BrokerState) (symbol : String) (position : Position)
    (price : ℚ) (timestamp : ℤ) (reason : Option String) : BrokerState :=
  let pnl := closePnl s position price
  let activate := pnl < 0 ∧ s.maxConsecutiveLoss ≤ s.consecutiveLosses + 1
  { s with
    accountEquity := roundDecimal (s.accountEquity + pnl)
      - closeCommissionAmt s position price
    totalPnl := roundDecimal (s.totalPnl + pnl)
    dailyPnl := roundDecimal (s.dailyPnl + pnl)
    consecutiveLosses := if pnl < 0 then s.consecutiveLosses + 1 else 0
    cooldownStartTime := if activate then timestamp else s.cooldownStartTime
    isCooldownActivate := if activate then true else s.isCooldownActivate
    trades := s.trades ++ [closedTrade s position price timestamp reason]
    positions := aerase s.positions symbol }

/-- Broker.close_position (lines 286-369).  Note that the stored side is
flipped before the exit-slippage direction and the PnL branch are chosen,
exactly as in the source. -/
def closePosition (s : BrokerState) (symbol : String) (price : ℚ) (timestamp : ℤ)
    (reason : Option String) : Bool × BrokerState :=
  match alookup s.positions symbol with
  | none => (false, s)
  | some position =>
      (true, closeSuccess s symbol position price timestamp reason)

/-- UTC day number of a millisecond timestamp: Python
datetime.fromtimestamp(t / 1000, tz=timezone.utc).date() compares equal
to another such date exactly when the floor of t / 86400000 agrees. -/
def utcDay (t : ℤ) : ℤ :=
  Int.fdiv t 86400000

/-- Broker._reset_daily_data (lines 392-416): lazy daily reset.  The
first call (sentinel last_reset_time == 0) only records the boundary;
afterwards the counters reset exactly when the UTC date advanced. -/
def resetDailyData (s : BrokerState) (currentTime : ℤ) : BrokerState :=
  let midnight := utcDay currentTime * 86400000
  if s.lastResetTime = 0 then { s with lastResetTime := midnight }
  else if utcDay s.lastResetTime < utcDay currentTime then
    { s with dailyPnl := 0, dailyTrades := 0, lastResetTime := midnight }
  else s

/-- Broker.check_margin_usage (lines 418-439).  The zero-equity division
guard returns the blocking value false. -/
def checkMarginUsage (s : BrokerState) : Bool :=
  if s.accountEquity = 0 then false
  else decide (totalMargin s / s.accountEquity ≤ s.maxMarginUsage)

/-- Broker.check_daily_pnl (lines 441-461). -/
def checkDailyPnl (s : BrokerState) : Bool :=
  if s.dailyPnl < -(s.accountEquity * s.maxDailyLoss) then false else true

/-- Broker.check_daily_trades (lines 463-479): performs the lazy daily
reset, then compares the counter with the ceiling. -/
def checkDailyTrades (s : BrokerState) (currentTime : ℤ) : Bool × BrokerState :=
  let s2 := resetDailyData s currentTime
  (decide (s2.dailyTrades < s2.maxDailyTrades), s2)

/-- Broker.check_cooldown (lines 481-505).  While the cooldown is active
and not yet expired the check blocks; at or after expiry it clears the
cooldown state and passes. -/
def checkCooldown (s : BrokerState) (currentTime : ℤ) : Bool × BrokerState :=
  if s.isCooldownActivate then
    if currentTime - s.cooldownStartTime < s.cooldownPeriod * 1000 then (false, s)
    else
      (true,
        { s with
          consecutiveLosses := 0, cooldownStartTime := 0, isCooldownActivate := false })
  else (true, s)

/-- Broker.can_open_position (lines 559-572): all([...]) over the four
checks, evaluated in order on the threaded state. -/
def canOpenPosition (s : BrokerState) (currentTime : ℤ) : Bool × BrokerState :=
  let b1 := checkMarginUsage s
  let b2 := checkDailyPnl s
  let r3 := checkDailyTrades s currentTime
  let r4 := checkCooldown r3.2 currentTime
  (b1 && b2 && r3.1 && r4.1, r4.2)

/-- The callback stop price computed for a BUY position inside
Broker.check_trailing_stop (line 713): high * (1 - price_rate / 100). -/
def buyCallbackStop (highPrice priceRate : ℚ) : ℚ :=
  highPrice * (1 - priceRate / 100)

/-- The callback stop price computed for a SELL position inside
Broker.check_trailing_stop (line 722): low * (1 + price_rate / 100). -/
def sellCallbackStop (lowPrice priceRate : ℚ) : ℚ :=
  lowPrice * (1 + priceRate / 100)

/-- Broker.check_trailing_stop (lines 687-728).  Returns the trigger flag
and the state, whose position gains the callback price as stop_loss
exactly when the trigger fires. -/
def checkTrailingStop (s : BrokerState) (symbol : String) (highPrice lowPrice : ℚ) :
    Bool × BrokerState :=
  match alookup s.positions symbol with
  | none => (false, s)
  | some position =>
      match position.trailingStop, position.priceRate with
      | some trailing, some rate =>
          if position.side = "BUY" then
            if highPrice > trailing then
              let stopPrice := buyCallbackStop highPrice rate
              if lowPrice ≤ stopPrice then
                (true,
                  { s with
                    positions := aupdate s.positions symbol
                      { position with stopLoss := some stopPrice } })
              else (false, s)
            else (false, s)
          else
            if lowPrice < trailing then
              let stopPrice := sellCallbackStop lowPrice rate
              if highPrice ≥ stopPrice then
                (true,
                  { s with
                    positions := aupdate s.positions symbol
                      { position with stopLoss := some stopPrice } })
              else (false, s)
            else (false, s)
      | _, _ => (false, s)

/-- A call into the broker mutation API, for reasoning about arbitrary
interleavings of opens and closes. -/
inductive BrokerEvent where
  | openEv (symbol side : String) (amount price : ℚ) (timestamp : ℤ)
      (strategy : Option String) (stopLoss takeProfit trailingStop priceRate : Option ℚ)
  | closeEv (symbol : String) (price : ℚ) (timestamp : ℤ) (reason : Option String)

/-- Apply one broker call, keeping only the resulting state (a failed
call leaves the state unchanged, as in the source). -/
def applyEvent (s : BrokerState) (e : BrokerEvent) : BrokerState :=
  match e with
  | .openEv symbol side amount price timestamp strategy sl tp tr pr =>
      (openPosition s symbol side amount price timestamp strategy sl tp tr pr).2
  | .closeEv symbol price timestamp reason =>
      (closePosition s symbol price timestamp reason).2

/-- Run a sequence of broker calls from a starting state. -/
def runEvents (s : BrokerState) (events : List BrokerEvent) : BrokerState :=
  events.foldl applyEvent s

/-- The broker state right after Broker.__init__ with the given
configuration (lines 26-121): empty books, zeroed counters. -/
def initBroker (initialBalance fee slippage leverage maxMarginUsage maxDailyLoss : ℚ)
    (maxDailyTrades maxConsecutiveLoss : ℕ) (cooldownPeriod : ℤ) : BrokerState :=
  { commissionRate := fee, slippageRate := slippage, leverage := leverage
    maxMarginUsage := maxMarginUsage, maxDailyLoss := maxDailyLoss
    maxDailyTrades := maxDailyTrades, maxConsecutiveLoss := maxConsecutiveLoss
    cooldownPeriod := cooldownPeriod, accountEquity := initialBalance
    totalTrades := 0, totalPnl := 0, dailyTrades := 0, dailyPnl := 0
    positions := [], trades := [], consecutiveLosses := 0
    cooldownStartTime := 0, isCooldownActivate := false, lastResetTime := 0 }

/-- Sum of the pnl fields of all recorded trades. -/
def tradesPnlSum (s : BrokerState) : ℚ :=
  (s.trades.map (fun tr => tr.pnl)).sum

/-- Total commissions paid over the life of the account: entry and exit
commission of every recorded trade plus the entry commission of every
still-open position, each reconstructed from the stored notionals
exactly as open_position / close_position computed them. -/
def commissionsTotal (s : BrokerState) : ℚ :=
  (s.trades.map (fun tr =>
    roundDecimal (tr.openSize * s.commissionRate)
      + roundDecimal (tr.closeSize * s.commissionRate))).sum
  + (s.positions.map (fun q => roundDecimal (q.2.openSize * s.commissionRate))).sum

/-- The accounting invariant tying the equity to the trade log and the
commissions paid, together with the bookkeeping facts that keep it
inductive: the equity stays an 8-digit decimal and the position
dictionary has distinct keys. -/
def ledgerInvariant (initialBalance : ℚ) (s : BrokerState) : Prop :=
  isDec8 s.accountEquity ∧ (s.positions.map Prod.fst).Nodup ∧
    s.accountEquity = initialBalance + tradesPnlSum s - commissionsTotal s

/-- A dynamically typed Python value, as far as Strategy.select needs
one: the variable strategy_type holds either a str or a list of str. -/
inductive PyVal where
  | pstr (s : String)
  | plist (l : List String)

/-- Python equality between two such values: comparing a list with a str
yields False (both __eq__ methods return NotImplemented). -/
def pyEq : PyVal → PyVal → Bool
  | .pstr a, .pstr b => a == b
  | .plist a, .plist b => a == b
  | _, _ => false

/-- The 108-combination strategy table of RiskControl.select_strategy
(risk_control.py lines 143-173), keyed by the three trend labels; every
listed combination maps to the same four eligible variants. -/
def strategyMap : List ((String × String × String) × List String) :=
  [(("long", "long", "long"), ["trend_long", "trend_short", "mean_rev_long", "mean_rev_short"]),
   (("long", "long", "short"), ["trend_long", "trend_short", "mean_rev_long", "mean_rev_short"]),
   (("long", "long", "sideway"), ["trend_long", "trend_short", "mean_rev_long", "mean_rev_short"]),
   (("long", "short", "long"), ["trend_long", "trend_short", "mean_rev_long", "mean_rev_short"]),
   (("long", "short", "short"), ["trend_long", "trend_short", "mean_rev_long", "mean_rev_short"]),
   (("long", "short", "sideway"), ["trend_long", "trend_short", "mean_rev_long", "mean_rev_short"]),
   (("long", "sideway", "long"), ["trend_long", "trend_short", "mean_rev_long", "mean_rev_short"]),
   (("long", "sideway", "short"), ["trend_long", "trend_short", "mean_rev_long", "mean_rev_short"]),
   (("long", "sideway", "sideway"), ["trend_long", "trend_short", "mean_rev_long", "mean_rev_short"]),
   (("short", "long", "long"), ["trend_long", "trend_short", "mean_rev_long", "mean_rev_short"]),
   (("short", "long", "short"), ["trend_long", "trend_short", "mean_rev_long", "mean_rev_short"]),
   (("short", "long", "sideway"), ["trend_long", "trend_short", "mean_rev_long", "mean_rev_short"]),
   (("short", "short", "long"), ["trend_long", "trend_short", "mean_rev_long", "mean_rev_short"]),
   (("short", "short", "short"), ["trend_long", "trend_short", "mean_rev_long", "mean_rev_short"]),
   (("short", "short", "sideway"), ["trend_long", "trend_short", "mean_rev_long", "mean_rev_short"]),
   (("short", "sideway", "long"), ["trend_long", "trend_short", "mean_rev_long", "mean_rev_short"]),
   (("short", "sideway", "short"), ["trend_long", "trend_short", "mean_rev_long", "mean_rev_short"]),
   (("short", "sideway", "sideway"), ["trend_long", "trend_short", "mean_rev_long", "mean_rev_short"]),
   (("sideway", "long", "long"), ["trend_long", "trend_short", "mean_rev_long", "mean_rev_short"]),
   (("sideway", "long", "short"), ["trend_long", "trend_short", "mean_rev_long", "mean_rev_short"]),
   (("sideway", "long", "sideway"), ["trend_long", "trend_short", "mean_rev_long", "mean_rev_short"]),
   (("sideway", "short", "long"), ["trend_long", "trend_short", "mean_rev_long", "mean_rev_short"]),
   (("sideway", "short", "short"), ["trend_long", "trend_short", "mean_rev_long", "mean_rev_short"]),
   (("sideway", "short", "sideway"), ["trend_long", "trend_short", "mean_rev_long", "mean_rev_short"]),
   (("sideway", "sideway", "long"), ["trend_long", "trend_short", "mean_rev_long", "mean_rev_short"]),
   (("sideway", "sideway", "short"), ["trend_long", "trend_short", "mean_rev_long", "mean_rev_short"]),
   (("sideway", "sideway", "sideway"), ["trend_long", "trend_short", "mean_rev_long", "mean_rev_short"])]

/-- RiskControl.select_strategy (risk_control.py lines 120-188), given
the outcomes of the three filters: when the volume and bandwidth filters
pass, the trend-label key is looked up in the table; the result is the
strategy list the function returns to its caller. -/
def selectStrategy (t1 t2 t3 : String) (volumeOk bandwidthOk : Bool) : List String :=
  if volumeOk && bandwidthOk then
    match strategyMap.lookup (t1, t2, t3) with
    | some v => v
    | none => ["no_trade"]
  else ["no_trade"]

/-- Strategy.select (strategy.py lines 24-75), given the filter outcomes
feeding RiskControl.select_strategy, the four entry signals on the
closed candle and the slippage-feasibility result.  The variable
strategy_type holds the list returned by select_strategy and is compared
with the strings "no_trade", "trend" and "mean_reversion" using Python
equality. -/
def strategySelect (t1 t2 t3 : String)
    (volumeOk bandwidthOk trendLongSig trendShortSig meanRevLongSig meanRevShortSig
      slippageOk : Bool) : String :=
  let strategyType : PyVal := .plist (selectStrategy t1 t2 t3 volumeOk bandwidthOk)
  if pyEq strategyType (.pstr "no_trade") then "no_trade"
  else if pyEq strategyType (.pstr "trend") then
    if trendLongSig && slippageOk then "trend_long"
    else if trendShortSig && slippageOk then "trend_short"
    else "no_trade"
  else if pyEq strategyType (.pstr "mean_reversion") then
    if meanRevLongSig && slippageOk then "mean_rev_long"
    else if meanRevShortSig && slippageOk then "mean_rev_short"
    else "no_trade"
  else "no_trade"

/-- The configuration of testable-properties Scenario A: equity 10000,
leverage 5, fee 0.0005, slippage 0.0005; the remaining limits are
arbitrary representative values (they play no role in open or close). -/
def scenarioBroker : BrokerState :=
  initBroker 10000 0.0005 0.0005 5 0.6 0.05 10 3 3600

/-- The state after the Scenario A open: BUY 0.1 BTC at price 50000. -/
def scenarioAfterOpen : BrokerState :=
  (openPosition scenarioBroker "BTCUSDT" "BUY" 0.1 50000 1700000000000
    (some "trend_long") none none none none).2

/-- Scenario B: closing the Scenario A position at price 51000. -/
def scenarioClose : Bool × BrokerState :=
  closePosition scenarioAfterOpen "BTCUSDT" 51000 1700003600000 (some "TAKE_PROFIT")

/-- The position record stored by the Scenario A open. -/
def scenarioPosition : Position :=
  newPosition "BTCUSDT" "BUY" (some "trend_long") 1700000000000
    (openSlippagePrice scenarioBroker "BUY" 50000) 0.1
    (openTradeSize scenarioBroker "BUY" 0.1 50000)
    (openMarginAmt scenarioBroker "BUY" 0.1 50000) none none none none

/-- A position held open in a broker that is two losses deep, used to
exercise the cooldown and side-flip behaviour on concrete inputs. -/
def samplePosition : Position :=
  { symbol := "BTCUSDT", side := "BUY", strategy := some "trend_long"
    openTime := 0, closeTime := none, openPrice := 100, openAmt := 1
    openSize := 100, closePrice := 0, closeAmt := 0, closeSize := 0
    margin := 20, closeReason := none, stopLoss := none, takeProfit := none
    trailingStop := some 110, priceRate := some 1, pnl := 0, pnlPercentage := 0 }

/-- A broker state with an active cooldown that started at time 0 and a
single open BUY position. -/
def cooldownScenario : BrokerState :=
  { commissionRate := 0.0005, slippageRate := 0.0005, leverage := 5
    maxMarginUsage := 0.6, maxDailyLoss := 0.05, maxDailyTrades := 10
    maxConsecutiveLoss := 3, cooldownPeriod := 3600, accountEquity := 10000
    totalTrades := 3, totalPnl := -10, dailyTrades := 3, dailyPnl := -10
    positions := [("BTCUSDT", samplePosition)], trades := []
    consecutiveLosses := 2, cooldownStartTime := 0, isCooldownActivate := true
    lastResetTime := 86400000 }

/-- The cooldown scenario with the equity zeroed out and the cooldown
switched off, exercising the division guard of check_margin_usage. -/
def zeroEquityScenario : BrokerState :=
  { cooldownScenario with accountEquity := 0, isCooldownActivate := false }

theorem halfUpUnits_intCast (n : ℤ) : halfUpUnits (n : ℚ) = n := by
  unfold halfUpUnits
  have h1 : ⌊(n : ℚ) + 1 / 2⌋ = n := by
    rw [add_comm, Int.floor_add_int]
    norm_num
  have h2 : ⌊-(n : ℚ) + 1 / 2⌋ = -n := by
    rw [show -(n : ℚ) = ((-n : ℤ) : ℚ) by push_cast; ring, add_comm, Int.floor_add_int]
    norm_num
  split
  · exact h1
  · rw [h2]; ring

theorem roundDecimal_isDec8 (x : ℚ) : isDec8 (roundDecimal x) :=
  ⟨halfUpUnits (x * 100000000), rfl⟩

theorem roundDecimal_eq_self {x : ℚ} (h : isDec8 x) : roundDecimal x = x := by
  obtain ⟨n, rfl⟩ := h
  unfold roundDecimal
  rw [show (n : ℚ) / 100000000 * 100000000 = (n : ℚ) by field_simp, halfUpUnits_intCast]

theorem roundDecimal_idem (x : ℚ) : roundDecimal (roundDecimal x) = roundDecimal x :=
  roundDecimal_eq_self (roundDecimal_isDec8 x)

theorem isDec8_add {x y : ℚ} (hx : isDec8 x) (hy : isDec8 y) : isDec8 (x + y) := by
  obtain ⟨n, rfl⟩ := hx
  obtain ⟨m, rfl⟩ := hy
  exact ⟨n + m, by push_cast; ring⟩

theorem isDec8_sub {x y : ℚ} (hx : isDec8 x) (hy : isDec8 y) : isDec8 (x - y) := by
  obtain ⟨n, rfl⟩ := hx
  obtain ⟨m, rfl⟩ := hy
  exact ⟨n - m, by push_cast; ring⟩

theorem alookup_eq_none {ps : List (String × Position)} {sym : String} :
    alookup ps sym = none ↔ sym ∉ ps.map Prod.fst := by
  induction ps with
  | nil => simp [alookup]
  | cons q rest ih =>
      by_cases h : q.1 = sym
      · simp [alookup, h]
      · simp [alookup, h, ih, Ne.symm h]

theorem aerase_of_not_mem {ps : List (String × Position)} {sym : String}
    (h : sym ∉ ps.map Prod.fst) : aerase ps sym = ps := by
  rw [aerase, List.filter_eq_self]
  intro q hq
  simp only [ne_eq, decide_eq_true_eq]
  intro hqs
  exact h (hqs ▸ List.mem_map_of_mem Prod.fst hq)

theorem aerase_cons_self {q : String × Position} {rest : List (String × Position)}
    {sym : String} (h : q.1 = sym) : aerase (q :: rest) sym = aerase rest sym := by
  simp [aerase, List.filter_cons, h]

theorem aerase_cons_ne {q : String × Position} {rest : List (String × Position)}
    {sym : String} (h : ¬q.1 = sym) : aerase (q :: rest) sym = q :: aerase rest sym := by
  simp [aerase, List.filter_cons, h]

theorem sum_aerase (g : String × Position → ℚ) :
    ∀ (ps : List (String × Position)) (sym : String) (p : Position),
      (ps.map Prod.fst).Nodup → alookup ps sym = some p →
      ((aerase ps sym).map g).sum = ((ps.map g).sum) - g (sym, p) := by
  intro ps
  induction ps with
  | nil => intro sym p _ h; simp [alookup] at h
  | cons q rest ih =>
      intro sym p hnd hl
      rw [List.map_cons] at hnd
      obtain ⟨hq, hrest⟩ := List.nodup_cons.mp hnd
      by_cases h : q.1 = sym
      · have hp : p = q.2 := by simp [alookup, h] at hl; exact hl.symm
        subst hp
        subst h
        have hgq : g (q.1, q.2) = g q := rfl
        rw [aerase_cons_self rfl, aerase_of_not_mem hq, hgq, List.map_cons,
          List.sum_cons]
        ring
      · have hl2 : alookup rest sym = some p := by simpa [alookup, h] using hl
        rw [aerase_cons_ne h, List.map_cons, List.sum_cons, List.map_cons,
          List.sum_cons, ih sym p hrest hl2]
        ring

theorem aerase_keys_nodup {ps : List (String × Position)} {sym : String}
    (h : (ps.map Prod.fst).Nodup) : ((aerase ps sym).map Prod.fst).Nodup :=
  ((List.filter_sublist ps).map Prod.fst).nodup h

/-- Claim C1: at most one open position per symbol.  Calling open_position
for a symbol that already has an entry returns False and leaves the whole
broker state (positions map, equity, trade counters) unchanged, never
overwriting the existing position; a successful open appends exactly one
entry for that symbol, which was previously absent. -/
theorem open_position_unique_per_symbol
    (s : BrokerState) (sym side : String) (amount price : ℚ) (ts : ℤ)
    (strategy : Option String) (sl tp tr pr : Option ℚ) :
    ((alookup s.positions sym).isSome = true →
      openPosition s sym side amount price ts strategy sl tp tr pr = (false, s)) ∧
    ((openPosition s sym side amount price ts strategy sl tp tr pr).1 = true →
      alookup s.positions sym = none ∧
      ∃ p, (openPosition s sym side amount price ts strategy sl tp tr pr).2.positions
          = s.positions ++ [(sym, p)]) := by
  constructor
  · intro h
    cases hl : alookup s.positions sym with
    | none => rw [hl] at h; simp at h
    | some p => simp [openPosition, hl]
  · intro h
    cases hl : alookup s.positions sym with
    | some p => simp [openPosition, hl] at h
    | none =>
        refine ⟨rfl, ?_⟩
        simp only [openPosition, hl] at h ⊢
        rcases Decidable.em (openMarginAmt s side amount price
            + openCommissionAmt s side amount price > s.accountEquity) with hc | hc
        · rw [if_pos hc] at h; simp at h
        · rw [if_neg hc]
          exact ⟨_, rfl⟩

/-- Witness for C1 at a concrete occupied state. -/
theorem open_position_unique_per_symbol_witness :
    (alookup cooldownScenario.positions "BTCUSDT").isSome = true ∧
    openPosition cooldownScenario "BTCUSDT" "BUY" 1 100 0 none none none none none
      = (false, cooldownScenario) := by
  have h := open_position_unique_per_symbol cooldownScenario "BTCUSDT" "BUY" 1 100 0
    none none none none none
  have hs : (alookup cooldownScenario.positions "BTCUSDT").isSome = true := by
    simp [cooldownScenario, alookup]
  exact ⟨hs, h.1 hs⟩

/-- Claim C10: close_position flips the stored side of the position before
computing the exit, so the trade record appended to the log carries the
side opposite to the side the position was opened with; the entry side is
not preserved in the logged trade. -/
theorem close_flips_trade_side
    (s : BrokerState) (sym : String) (price : ℚ) (ts : ℤ) (reason : Option String)
    (p : Position) (hp : alookup s.positions sym = some p) :
    (closePosition s sym price ts reason).1 = true ∧
    ∃ tr2, (closePosition s sym price ts reason).2.trades = s.trades ++ [tr2] ∧
      tr2.side = (if p.side = "BUY" then "SELL" else "BUY") ∧
      ((p.side = "BUY" ∨ p.side = "SELL") → tr2.side ≠ p.side) := by
  have hc : closePosition s sym price ts reason
      = (true, closeSuccess s sym p price ts reason) := by
    simp [closePosition, hp]
  rw [hc]
  refine ⟨rfl, closedTrade s p price ts reason, rfl, rfl, ?_⟩
  rintro (h | h) <;> simp [closedTrade, closeSide, h]

/-- Witness for C10: closing the open BUY position of the concrete
scenario logs a SELL-side trade. -/
theorem close_flips_trade_side_witness :
    ∃ tr2, (closePosition cooldownScenario "BTCUSDT" 200 7 none).2.trades
        = cooldownScenario.trades ++ [tr2] ∧ tr2.side = "SELL" := by
  have hp : alookup cooldownScenario.positions "BTCUSDT" = some samplePosition := by
    simp [cooldownScenario, alookup]
  obtain ⟨tr2, h1, h2, -⟩ :=
    (close_flips_trade_side cooldownScenario "BTCUSDT" 200 7 none samplePosition hp).2
  exact ⟨tr2, h1, by simpa [samplePosition] using h2⟩

theorem resetDailyData_fields (s : BrokerState) (t : ℤ) :
    (resetDailyData s t).isCooldownActivate = s.isCooldownActivate ∧
    (resetDailyData s t).cooldownStartTime = s.cooldownStartTime ∧
    (resetDailyData s t).cooldownPeriod = s.cooldownPeriod ∧
    (resetDailyData s t).maxDailyTrades = s.maxDailyTrades := by
  simp only [resetDailyData]
  split
  · exact ⟨rfl, rfl, rfl, rfl⟩
  · split
    · exact ⟨rfl, rfl, rfl, rfl⟩
    · exact ⟨rfl, rfl, rfl, rfl⟩

theorem utcDay_mul (d : ℤ) : utcDay (d * 86400000) = d := by
  unfold utcDay
  exact Int.mul_fdiv_cancel d (by norm_num)

/-- Claim C7: trailing-stop ratchet monotonicity.  The callback stop
price computed for a BUY position, high * (1 - rate / 100), is monotone
in the bar high (for any callback rate of at most 100 percent), so as the
high increases across successive checks the armed threshold only moves
up; and when check_trailing_stop fires for an armed BUY position it
stores exactly that callback price as the new stop_loss. -/
theorem trailing_callback_monotone
    (s : BrokerState) (sym : String) (p : Position) (a r high1 high2 low : ℚ)
    (hr : r ≤ 100) (hh : high1 ≤ high2) :
    buyCallbackStop high1 r ≤ buyCallbackStop high2 r ∧
    (alookup s.positions sym = some p → p.side = "BUY" → p.trailingStop = some a →
      p.priceRate = some r → high2 > a → low ≤ buyCallbackStop high2 r →
      (checkTrailingStop s sym high2 low).1 = true ∧
      (checkTrailingStop s sym high2 low).2.positions
        = aupdate s.positions sym { p with stopLoss := some (buyCallbackStop high2 r) }) := by
  constructor
  · unfold buyCallbackStop
    have hcoef : (0 : ℚ) ≤ 1 - r / 100 := by linarith
    exact mul_le_mul_of_nonneg_right hh hcoef
  · intro hp hside hta hpr hgt hle
    simp only [checkTrailingStop, hp, hta, hpr, hside, if_true]
    rw [if_pos hgt, if_pos hle]
    exact ⟨rfl, rfl⟩

/-- Witness for C7 on the concrete armed BUY position: activation 110,
callback rate 1 percent, highs 115 then 120, low 100. -/
theorem trailing_callback_monotone_witness :
    buyCallbackStop 115 1 ≤ buyCallbackStop 120 1 ∧
    (checkTrailingStop cooldownScenario "BTCUSDT" 120 100).1 = true := by
  have h := trailing_callback_monotone cooldownScenario "BTCUSDT" samplePosition
    110 1 115 120 100 (by norm_num) (by norm_num)
  refine ⟨h.1, ?_⟩
  have h2 := h.2 (by simp [cooldownScenario, alookup]) rfl rfl rfl
    (by norm_num) (by norm_num [buyCallbackStop])
  exact h2.1

/-- Claim C6: the cooldown state machine.  A losing close increments the
consecutive-loss counter and, once the counter reaches the configured
threshold (the third loss under threshold 3), activates the cooldown with
start time equal to that close timestamp; a non-losing close resets the
counter to 0; while the cooldown is active, can_open_position returns
false at every time strictly before start + cooldown_period seconds; and
the first cooldown check at or after expiry clears the flag and resets
the counter to 0. -/
theorem cooldown_state_machine
    (s : BrokerState) (sym : String) (price : ℚ) (ts t : ℤ) (reason : Option String) :
    (∀ p, alookup s.positions sym = some p →
      (closePosition s sym price ts reason).1 = true ∧
      ∃ tr2, (closePosition s sym price ts reason).2.trades = s.trades ++ [tr2] ∧
        (tr2.pnl < 0 →
          (closePosition s sym price ts reason).2.consecutiveLosses
            = s.consecutiveLosses + 1 ∧
          (s.maxConsecutiveLoss ≤ s.consecutiveLosses + 1 →
            (closePosition s sym price ts reason).2.isCooldownActivate = true ∧
            (closePosition s sym price ts reason).2.cooldownStartTime = ts)) ∧
        (0 ≤ tr2.pnl → (closePosition s sym price ts reason).2.consecutiveLosses = 0)) ∧
    (s.isCooldownActivate = true →
      t < s.cooldownStartTime + s.cooldownPeriod * 1000 →
      (canOpenPosition s t).1 = false) ∧
    (s.isCooldownActivate = true →
      s.cooldownStartTime + s.cooldownPeriod * 1000 ≤ t →
      (checkCooldown s t).1 = true ∧
      (checkCooldown s t).2.isCooldownActivate = false ∧
      (checkCooldown s t).2.consecutiveLosses = 0) := by
  refine ⟨?_, ?_, ?_⟩
  · intro p hp
    have hc : closePosition s sym price ts reason
        = (true, closeSuccess s sym p price ts reason) := by
      simp [closePosition, hp]
    rw [hc]
    refine ⟨rfl, closedTrade s p price ts reason, rfl, ?_, ?_⟩
    · intro hneg
      have hneg2 : closePnl s p price < 0 := hneg
      constructor
      · show (if closePnl s p price < 0 then s.consecutiveLosses + 1 else 0)
            = s.consecutiveLosses + 1
        rw [if_pos hneg2]
      · intro hth
        have hact : closePnl s p price < 0
            ∧ s.maxConsecutiveLoss ≤ s.consecutiveLosses + 1 := ⟨hneg2, hth⟩
        constructor
        · show (if closePnl s p price < 0
                ∧ s.maxConsecutiveLoss ≤ s.consecutiveLosses + 1 then true
              else s.isCooldownActivate) = true
          rw [if_pos hact]
        · show (if closePnl s p price < 0
                ∧ s.maxConsecutiveLoss ≤ s.consecutiveLosses + 1 then ts
              else s.cooldownStartTime) = ts
          rw [if_pos hact]
    · intro hpos
      have hpos2 : ¬ closePnl s p price < 0 := not_lt.mpr hpos
      show (if closePnl s p price < 0 then s.consecutiveLosses + 1 else 0) = 0
      rw [if_neg hpos2]
  · intro hcd hlt
    have hf := resetDailyData_fields s t
    have hcool : (checkCooldown (resetDailyData s t) t).1 = false := by
      simp only [checkCooldown, hf.1, hf.2.1, hf.2.2.1, hcd, if_true]
      rw [if_pos (by omega : t - s.cooldownStartTime < s.cooldownPeriod * 1000)]
    simp [canOpenPosition, checkDailyTrades, hcool]
  · intro hcd hge
    have hcond : ¬ (t - s.cooldownStartTime < s.cooldownPeriod * 1000) := by omega
    simp [checkCooldown, hcd, hcond]

/-- Witness for C6: in the concrete cooldown scenario (start 0,
period 3600 s) opening is blocked at t = 1000 ms, the check at exactly
3600000 ms clears the counter, and a close on the open position
succeeds. -/
theorem cooldown_state_machine_witness :
    (closePosition cooldownScenario "BTCUSDT" 100 5 none).1 = true ∧
    (canOpenPosition cooldownScenario 1000).1 = false ∧
    (checkCooldown cooldownScenario 3600000).2.consecutiveLosses = 0 := by
  have h1 := cooldown_state_machine cooldownScenario "BTCUSDT" 100 5 1000 none
  have h2 := cooldown_state_machine cooldownScenario "BTCUSDT" 100 5 3600000 none
  refine ⟨?_, ?_, ?_⟩
  · exact (h1.1 samplePosition (by simp [cooldownScenario, alookup])).1
  · exact h1.2.1 rfl (by decide)
  · exact (h2.2.2 rfl (by decide)).2.2

/-- Claim C8: lazy daily reset.  Once initialized (nonzero
last_reset_time), the daily counters are zeroed exactly when a check runs
at a timestamp whose UTC day is strictly greater than that of
last_reset_time (which is then moved to the UTC midnight of the new day);
a call without a day advance changes nothing; after a reset, no further
call within the same UTC day touches the counters; and the reset is
driven by the daily-trade-count check itself. -/
theorem lazy_daily_reset (s : BrokerState) (t : ℤ) (h0 : s.lastResetTime ≠ 0) :
    (utcDay s.lastResetTime < utcDay t →
      (resetDailyData s t).dailyTrades = 0 ∧ (resetDailyData s t).dailyPnl = 0 ∧
      (resetDailyData s t).lastResetTime = utcDay t * 86400000) ∧
    (¬ utcDay s.lastResetTime < utcDay t → resetDailyData s t = s) ∧
    (∀ (s2 : BrokerState) (t2 : ℤ), s2.lastResetTime = utcDay t * 86400000 →
      utcDay t2 = utcDay t →
      (resetDailyData s2 t2).dailyTrades = s2.dailyTrades ∧
      (resetDailyData s2 t2).dailyPnl = s2.dailyPnl) ∧
    (checkDailyTrades s t).2 = resetDailyData s t := by
  refine ⟨?_, ?_, ?_, rfl⟩
  · intro hlt
    simp [resetDailyData, h0, hlt]
  · intro hnlt
    simp [resetDailyData, h0, hnlt]
  · intro s2 t2 h2 ht2
    by_cases hz : s2.lastResetTime = 0
    · simp [resetDailyData, hz]
    · have hnd : ¬ (utcDay s2.lastResetTime < utcDay t2) := by
        rw [h2, ht2, utcDay_mul]
        exact lt_irrefl _
      simp [resetDailyData, hz, hnd]

/-- Witness for C8: the concrete scenario has last_reset_time at UTC day
1; a check on UTC day 2 zeroes both daily counters. -/
theorem lazy_daily_reset_witness :
    (resetDailyData cooldownScenario 172800005).dailyTrades = 0 ∧
    (resetDailyData cooldownScenario 172800005).dailyPnl = 0 := by
  have h := lazy_daily_reset cooldownScenario 172800005 (by decide)
  have h1 := h.1 (by decide)
  exact ⟨h1.1, h1.2.1⟩

/-- Claim C9: can_open_position is exactly the conjunction of the
margin-usage, daily-loss, daily-trade-count (on the lazily reset state)
and cooldown conditions; each check is a total boolean function, and the
zero-equity state, where the margin ratio is undefined, makes the margin
check return the blocking value false, so the gate blocks. -/
theorem risk_gate_conjunction (s : BrokerState) (t : ℤ) :
    ((canOpenPosition s t).1 = true ↔
      (s.accountEquity ≠ 0 ∧ totalMargin s / s.accountEquity ≤ s.maxMarginUsage) ∧
      -(s.accountEquity * s.maxDailyLoss) ≤ s.dailyPnl ∧
      (resetDailyData s t).dailyTrades < s.maxDailyTrades ∧
      (s.isCooldownActivate = true →
        s.cooldownPeriod * 1000 ≤ t - s.cooldownStartTime)) ∧
    (s.accountEquity = 0 → (canOpenPosition s t).1 = false) := by
  have hf := resetDailyData_fields s t
  constructor
  · constructor
    · intro h
      simp only [canOpenPosition, Bool.and_eq_true] at h
      obtain ⟨⟨⟨h1, h2⟩, h3⟩, h4⟩ := h
      refine ⟨?_, ?_, ?_, ?_⟩
      · by_cases hz : s.accountEquity = 0
        · rw [checkMarginUsage, if_pos hz] at h1; exact absurd h1 (by simp)
        · rw [checkMarginUsage, if_neg hz] at h1
          exact ⟨hz, of_decide_eq_true h1⟩
      · rw [checkDailyPnl] at h2
        by_cases hc : s.dailyPnl < -(s.accountEquity * s.maxDailyLoss)
        · rw [if_pos hc] at h2; exact absurd h2 (by simp)
        · exact not_lt.mp hc
      · rw [checkDailyTrades] at h3
        have := of_decide_eq_true h3
        rwa [hf.2.2.2] at this
      · intro hcd
        rw [checkDailyTrades] at h4
        rw [checkCooldown, hf.1, hcd, if_pos rfl] at h4
        by_cases hc : t - s.cooldownStartTime < s.cooldownPeriod * 1000
        · rw [if_pos (hf.2.1 ▸ hf.2.2.1 ▸ hc)] at h4; exact absurd h4 (by simp)
        · omega
    · rintro ⟨⟨hz, hm⟩, hpnl, htr, hcool⟩
      simp only [canOpenPosition, Bool.and_eq_true]
      refine ⟨⟨⟨?_, ?_⟩, ?_⟩, ?_⟩
      · rw [checkMarginUsage, if_neg hz]
        exact decide_eq_true hm
      · rw [checkDailyPnl, if_neg (not_lt.mpr hpnl)]
      · rw [checkDailyTrades]
        exact decide_eq_true (hf.2.2.2 ▸ htr)
      · rw [checkDailyTrades, checkCooldown, hf.1, hf.2.1, hf.2.2.1]
        by_cases hcd : s.isCooldownActivate = true
        · rw [hcd, if_pos rfl, if_neg (by have := hcool hcd; omega)]
        · rw [if_neg hcd]
  · intro hz
    have h1 : checkMarginUsage s = false := by rw [checkMarginUsage, if_pos hz]
    simp [canOpenPosition, h1]

/-- Witness for C9: the zero-equity state is blocked by the gate. -/
theorem risk_gate_conjunction_witness :
    (canOpenPosition zeroEquityScenario 0).1 = false :=
  (risk_gate_conjunction zeroEquityScenario 0).2 rfl

/-- Claim C5: strategy selection.  The eligible set handed back by
RiskControl.select_strategy for a fully trending regime with passing
filters is the four-variant list, yet Strategy.select compares that list
against the strings no_trade, trend and mean_reversion, comparisons that
are always false between a Python list and a str, so select returns
no_trade on every input - including the failing input where the
trend_long entry signal and the slippage check are both true. -/
theorem strategy_select_no_trade_eval :
    selectStrategy "long" "long" "long" true true
      = ["trend_long", "trend_short", "mean_rev_long", "mean_rev_short"] ∧
    strategySelect "long" "long" "long" true true true false false false true
      = "no_trade" ∧
    (∀ (t1 t2 t3 : String) (v b l sh ml ms sl : Bool),
      strategySelect t1 t2 t3 v b l sh ml ms sl = "no_trade") := by
  refine ⟨by decide, rfl, ?_⟩
  intro t1 t2 t3 v b l sh ml ms sl
  rfl

theorem open_slip_eval (s : BrokerState) (hslip : s.slippageRate = 0.0005) :
    openSlippagePrice s "BUY" 50000 = 50025 := by
  rw [openSlippagePrice, if_pos rfl, calculateSlippage, if_pos rfl, hslip,
    @roundDecimal_eq_self (50000 * (1 + 0.0005)) ⟨5002500000000, by norm_num⟩]
  norm_num

theorem open_size_eval (s : BrokerState) (hslip : s.slippageRate = 0.0005) :
    openTradeSize s "BUY" 0.1 50000 = 5002.5 := by
  rw [openTradeSize, open_slip_eval s hslip,
    @roundDecimal_eq_self (0.1 * 50025) ⟨500250000000, by norm_num⟩]
  norm_num

theorem open_comm_eval (s : BrokerState) (hslip : s.slippageRate = 0.0005)
    (hfee : s.commissionRate = 0.0005) :
    openCommissionAmt s "BUY" 0.1 50000 = 2.50125 := by
  rw [openCommissionAmt, open_size_eval s hslip, calculateCommission, hfee,
    @roundDecimal_eq_self (5002.5 * 0.0005) ⟨250125000, by norm_num⟩,
    @roundDecimal_eq_self (5002.5 * 0.0005) ⟨250125000, by norm_num⟩]
  norm_num

theorem open_margin_eval (s : BrokerState) (hslip : s.slippageRate = 0.0005)
    (hlev : s.leverage = 5) :
    openMarginAmt s "BUY" 0.1 50000 = 1000.5 := by
  rw [openMarginAmt, open_size_eval s hslip, hlev,
    @roundDecimal_eq_self (5002.5 / 5) ⟨100050000000, by norm_num⟩]
  norm_num

theorem open_btc_eval (s : BrokerState) (t : ℤ) (strat : Option String)
    (hslip : s.slippageRate = 0.0005) (hfee : s.commissionRate = 0.0005)
    (hlev : s.leverage = 5) (heq : s.accountEquity = 10000)
    (hpos : alookup s.positions "BTCUSDT" = none) :
    openPosition s "BTCUSDT" "BUY" 0.1 50000 t strat none none none none
      = (true, openSuccess s "BTCUSDT" "BUY" 0.1 50000 t strat none none none none) := by
  rw [openPosition, if_neg (by
    rw [open_margin_eval s hslip hlev, open_comm_eval s hslip hfee, heq]
    norm_num), hpos]

/-- Claim C4: the Scenario A open computes every monetary quantity as
specified; with equity 10000, leverage 5, fee 0.0005 and slippage
0.0005, opening BUY 0.1 at 50000 succeeds with entry price 50025,
notional 5002.5, margin 1000.5, commission 2.50125 and equity
9997.49875, and the stored position carries exactly those rounded
values; the rounding itself is half-up to 8 fractional digits. -/
theorem open_scenario_a (s : BrokerState) (t : ℤ)
    (hfee : s.commissionRate = 0.0005) (hslip : s.slippageRate = 0.0005)
    (hlev : s.leverage = 5) (heq : s.accountEquity = 10000)
    (hpos : alookup s.positions "BTCUSDT" = none) :
    (openPosition s "BTCUSDT" "BUY" 0.1 50000 t none none none none none).1 = true ∧
    openSlippagePrice s "BUY" 50000 = 50025 ∧
    openTradeSize s "BUY" 0.1 50000 = 5002.5 ∧
    openMarginAmt s "BUY" 0.1 50000 = 1000.5 ∧
    openCommissionAmt s "BUY" 0.1 50000 = 2.50125 ∧
    (openPosition s "BTCUSDT" "BUY" 0.1 50000 t none none none none none).2.accountEquity
      = 9997.49875 ∧
    (∃ p2, (openPosition s "BTCUSDT" "BUY" 0.1 50000 t none none none none none).2.positions
        = s.positions ++ [("BTCUSDT", p2)] ∧
      p2.openPrice = 50025 ∧ p2.openSize = 5002.5 ∧ p2.margin = 1000.5) ∧
    roundDecimal 1.000000005 = 1.00000001 := by
  have hopen := open_btc_eval s t none hslip hfee hlev heq hpos
  refine ⟨by rw [hopen], open_slip_eval s hslip, open_size_eval s hslip,
    open_margin_eval s hslip hlev, open_comm_eval s hslip hfee, ?_, ?_, ?_⟩
  · rw [hopen]
    show s.accountEquity - openCommissionAmt s "BUY" 0.1 50000 = 9997.49875
    rw [heq, open_comm_eval s hslip hfee]
    norm_num
  · refine ⟨_, by rw [hopen]; rfl, ?_, ?_, ?_⟩
    · exact open_slip_eval s hslip
    · exact open_size_eval s hslip
    · exact open_margin_eval s hslip hlev
  · unfold roundDecimal halfUpUnits
    rw [if_pos (by norm_num : (0 : ℚ) ≤ 1.000000005 * 100000000)]
    norm_num

/-- Witness for C4 at the concrete Scenario A configuration. -/
theorem open_scenario_a_witness :
    (openPosition scenarioBroker "BTCUSDT" "BUY" 0.1 50000 1700000000000
      none none none none none).1 = true ∧
    (openPosition scenarioBroker "BTCUSDT" "BUY" 0.1 50000 1700000000000
      none none none none none).2.accountEquity = 9997.49875 := by
  have h := open_scenario_a scenarioBroker 1700000000000 rfl rfl rfl rfl rfl
  exact ⟨h.1, h.2.2.2.2.2.1⟩

/-- Claim C3: Scenario B as specified fails on the code.  Because
close_position flips the stored side to SELL before choosing the exit
slippage branch, closing the Scenario A BUY position at 51000 applies the
buy-direction slippage 51000 * (1 + 0.0005) = 51025.5 - the favorable
direction - instead of the specified adverse 51000 * (1 - 0.0005)
= 50974.5, and the pnl recorded in the trade log is (51025.5 - 50025)
* 0.1 = 100.05 instead of the specified 94.95. -/
theorem close_buy_slippage_eval :
    scenarioClose.1 = true ∧
    closeSlippagePrice scenarioAfterOpen scenarioPosition 51000 = 51025.5 ∧
    closePnl scenarioAfterOpen scenarioPosition 51000 = 100.05 ∧
    closeSlippagePrice scenarioAfterOpen scenarioPosition 51000 ≠ 50974.5 ∧
    closePnl scenarioAfterOpen scenarioPosition 51000 ≠ 94.95 ∧
    ∃ tr2, scenarioClose.2.trades = scenarioAfterOpen.trades ++ [tr2] ∧
      tr2.side = "SELL" ∧ tr2.closePrice = 51025.5 ∧ tr2.pnl = 100.05 := by
  have hopen := open_btc_eval scenarioBroker 1700000000000 (some "trend_long")
    rfl rfl rfl rfl rfl
  have hA : scenarioAfterOpen = openSuccess scenarioBroker "BTCUSDT" "BUY" 0.1 50000
      1700000000000 (some "trend_long") none none none none := by
    unfold scenarioAfterOpen
    rw [hopen]
  have hlook : alookup scenarioAfterOpen.positions "BTCUSDT" = some scenarioPosition := by
    rw [hA]
    rfl
  have hclose : scenarioClose = (true, closeSuccess scenarioAfterOpen "BTCUSDT"
      scenarioPosition 51000 1700003600000 (some "TAKE_PROFIT")) := by
    unfold scenarioClose
    simp [closePosition, hlook]
  have hside : closeSide scenarioPosition = "SELL" := rfl
  have hsr : scenarioAfterOpen.slippageRate = 0.0005 := by rw [hA]; rfl
  have hslip2 : closeSlippagePrice scenarioAfterOpen scenarioPosition 51000 = 51025.5 := by
    rw [closeSlippagePrice, hside, if_neg (by decide : ¬ ("SELL" : String) = "BUY"),
      calculateSlippage, if_pos rfl, hsr,
      @roundDecimal_eq_self (51000 * (1 + 0.0005)) ⟨5102550000000, by norm_num⟩]
    norm_num
  have hentry : scenarioPosition.openPrice = 50025 := open_slip_eval scenarioBroker rfl
  have hpnl : closePnl scenarioAfterOpen scenarioPosition 51000 = 100.05 := by
    rw [closePnl, hside, if_neg (by decide : ¬ ("SELL" : String) = "BUY"), hslip2, hentry,
      show scenarioPosition.openAmt = (0.1 : ℚ) from rfl,
      @roundDecimal_eq_self ((51025.5 - 50025) * 0.1) ⟨10005000000, by norm_num⟩]
    norm_num
  refine ⟨by rw [hclose], hslip2, hpnl, by rw [hslip2]; norm_num, by rw [hpnl]; norm_num,
    closedTrade scenarioAfterOpen scenarioPosition 51000 1700003600000 (some "TAKE_PROFIT"),
    by rw [hclose]; rfl, ?_, ?_, ?_⟩
  · show closeSide scenarioPosition = "SELL"
    exact hside
  · show closeSlippagePrice scenarioAfterOpen scenarioPosition 51000 = 51025.5
    exact hslip2
  · exact hpnl

theorem closePnl_isDec8 (s : BrokerState) (p : Position) (price : ℚ) :
    isDec8 (closePnl s p price) := by
  unfold closePnl
  split
  · exact roundDecimal_isDec8 _
  · exact roundDecimal_isDec8 _

theorem ledgerInvariant_init (b fee slip lev mmu mdl : ℚ) (mdt mcl : ℕ) (cp : ℤ)
    (h : isDec8 b) :
    ledgerInvariant b (initBroker b fee slip lev mmu mdl mdt mcl cp) := by
  refine ⟨h, by simp [initBroker], ?_⟩
  simp [initBroker, tradesPnlSum, commissionsTotal]

theorem openPosition_preserves (b : ℚ) (s : BrokerState) (sym side : String)
    (amount price : ℚ) (ts : ℤ) (strat : Option String) (sl tp tr pr : Option ℚ)
    (h : ledgerInvariant b s) :
    ledgerInvariant b (openPosition s sym side amount price ts strat sl tp tr pr).2 := by
  rw [openPosition]
  rcases Decidable.em (openMarginAmt s side amount price
      + openCommissionAmt s side amount price > s.accountEquity) with hc | hc
  · rw [if_pos hc]; exact h
  · rw [if_neg hc]
    cases hl : alookup s.positions sym with
    | some p => exact h
    | none =>
        obtain ⟨h1, h2, h3⟩ := h
        have hnotmem : sym ∉ s.positions.map Prod.fst := alookup_eq_none.mp hl
        refine ⟨isDec8_sub h1 (roundDecimal_isDec8 _), ?_, ?_⟩
        · show ((s.positions ++ [(sym, newPosition sym side strat ts
              (openSlippagePrice s side price) amount (openTradeSize s side amount price)
              (openMarginAmt s side amount price) sl tp tr pr)]).map Prod.fst).Nodup
          rw [List.map_append]
          refine List.Nodup.append h2 (List.nodup_singleton _) ?_
          intro x hx hx2
          simp only [List.map_singleton, List.mem_singleton] at hx2
          exact hnotmem (hx2 ▸ hx)
        · have hcomm : openCommissionAmt s side amount price
              = roundDecimal (openTradeSize s side amount price * s.commissionRate) := by
            rw [openCommissionAmt, calculateCommission, roundDecimal_idem]
          have hP : tradesPnlSum
              (openSuccess s sym side amount price ts strat sl tp tr pr)
              = tradesPnlSum s := rfl
          have hC : commissionsTotal
              (openSuccess s sym side amount price ts strat sl tp tr pr)
              = commissionsTotal s
                + roundDecimal (openTradeSize s side amount price * s.commissionRate) := by
            simp only [commissionsTotal, openSuccess]
            rw [List.map_append, List.sum_append, List.map_singleton, List.sum_singleton]
            simp only [newPosition]
            ring
          show s.accountEquity - openCommissionAmt s side amount price
              = b + tradesPnlSum (openSuccess s sym side amount price ts strat sl tp tr pr)
                - commissionsTotal (openSuccess s sym side amount price ts strat sl tp tr pr)
          rw [hP, hC, h3, hcomm]
          ring

theorem closePosition_preserves (b : ℚ) (s : BrokerState) (sym : String) (price : ℚ)
    (ts : ℤ) (reason : Option String) (h : ledgerInvariant b s) :
    ledgerInvariant b (closePosition s sym price ts reason).2 := by
  rw [closePosition]
  cases hl : alookup s.positions sym with
  | none => exact h
  | some p =>
      obtain ⟨h1, h2, h3⟩ := h
      have hcomm : closeCommissionAmt s p price
          = roundDecimal (closeTradeSize s p price * s.commissionRate) := by
        rw [closeCommissionAmt, calculateCommission, roundDecimal_idem]
      refine ⟨?_, ?_, ?_⟩
      · show isDec8 (roundDecimal (s.accountEquity + closePnl s p price)
            - closeCommissionAmt s p price)
        exact isDec8_sub (roundDecimal_isDec8 _) (roundDecimal_isDec8 _)
      · show ((aerase s.positions sym).map Prod.fst).Nodup
        exact aerase_keys_nodup h2
      · have hround : roundDecimal (s.accountEquity + closePnl s p price)
            = s.accountEquity + closePnl s p price :=
          roundDecimal_eq_self (isDec8_add h1 (closePnl_isDec8 s p price))
        have hP : tradesPnlSum (closeSuccess s sym p price ts reason)
            = tradesPnlSum s + closePnl s p price := by
          simp only [tradesPnlSum, closeSuccess]
          rw [List.map_append, List.sum_append, List.map_singleton, List.sum_singleton]
          simp only [closedTrade]
        have hC : commissionsTotal (closeSuccess s sym p price ts reason)
            = commissionsTotal s
              + roundDecimal (closeTradeSize s p price * s.commissionRate) := by
          simp only [commissionsTotal, closeSuccess]
          rw [List.map_append, List.sum_append, List.map_singleton, List.sum_singleton,
            sum_aerase (fun q => roundDecimal (q.2.openSize * s.commissionRate))
              s.positions sym p h2 hl]
          simp only [closedTrade]
          ring
        show roundDecimal (s.accountEquity + closePnl s p price)
            - closeCommissionAmt s p price
          = b + tradesPnlSum (closeSuccess s sym p price ts reason)
            - commissionsTotal (closeSuccess s sym p price ts reason)
        rw [hround, hP, hC, h3, hcomm]
        ring

theorem applyEvent_preserves (b : ℚ) (s : BrokerState) (e : BrokerEvent)
    (h : ledgerInvariant b s) : ledgerInvariant b (applyEvent s e) := by
  cases e with
  | openEv sym side amount price ts strat sl tp tr pr =>
      exact openPosition_preserves b s sym side amount price ts strat sl tp tr pr h
  | closeEv sym price ts reason =>
      exact closePosition_preserves b s sym price ts reason h

theorem runEvents_preserves (b : ℚ) (events : List BrokerEvent) :
    ∀ s, ledgerInvariant b s → ledgerInvariant b (runEvents s events) := by
  induction events with
  | nil => intro s h; exact h
  | cons e rest ih =>
      intro s h
      exact ih (applyEvent s e) (applyEvent_preserves b s e h)

/-- Claim C2: conservation of equity.  After any sequence of open_position
and close_position calls starting from a freshly configured broker whose
initial balance is an 8-digit decimal, the account equity equals the
initial balance plus the sum of all recorded trade pnl values minus the
sum of all entry and exit commissions paid (entry commissions of
still-open positions included), to within 1e-8; the proof establishes the
identity exactly. -/
theorem equity_conservation
    (initialBalance fee slippage leverage mmu mdl : ℚ) (mdt mcl : ℕ) (cp : ℤ)
    (hinit : isDec8 initialBalance) (events : List BrokerEvent) :
    |(runEvents (initBroker initialBalance fee slippage leverage mmu mdl mdt mcl cp)
        events).accountEquity
      - (initialBalance
        + tradesPnlSum (runEvents
            (initBroker initialBalance fee slippage leverage mmu mdl mdt mcl cp) events)
        - commissionsTotal (runEvents
            (initBroker initialBalance fee slippage leverage mmu mdl mdt mcl cp) events))|
      ≤ 1 / 100000000 := by
  have h := runEvents_preserves initialBalance events _
    (ledgerInvariant_init initialBalance fee slippage leverage mmu mdl mdt mcl cp hinit)
  rw [h.2.2, sub_self, abs_zero]
  norm_num

/-- Witness for C2: one Scenario A open on the fresh scenario broker. -/
theorem equity_conservation_witness :
    isDec8 (10000 : ℚ) ∧
    |(runEvents scenarioBroker
        [BrokerEvent.openEv "BTCUSDT" "BUY" 0.1 50000 1700000000000
          none none none none none]).accountEquity
      - (10000
        + tradesPnlSum (runEvents scenarioBroker
            [BrokerEvent.openEv "BTCUSDT" "BUY" 0.1 50000 1700000000000
              none none none none none])
        - commissionsTotal (runEvents scenarioBroker
            [BrokerEvent.openEv "BTCUSDT" "BUY" 0.1 50000 1700000000000
              none none none none none]))|
      ≤ 1 / 100000000 :=
  ⟨⟨1000000000000, by norm_num⟩,
    equity_conservation 10000 0.0005 0.0005 5 0.6 0.05 10 3 3600
      ⟨1000000000000, by norm_num⟩
      [BrokerEvent.openEv "BTCUSDT" "BUY" 0.1 50000 1700000000000 none none none none none]⟩

end Backtest
